import Mathlib

/-!
Shallow embedding of the routing and budget-control subsystem of the
PC-Agent-Plus repository (files `model_selector.py`, `budget_tracker.py`,
`complexity_scorer.py`, `router_init.py`).

Currency amounts, thresholds and complexity scores are Python floats in the
source; they are embedded as rationals (`ℚ`), since every operation the
claims touch is addition, subtraction, `min`/`max` and comparison.  The
scorer's logistic squashing uses `exp` and is embedded over `ℝ`.
Python dicts are embedded as association lists with `List.lookup`, and a
`dict.get(k, d)` access becomes `(l.lookup k).getD d`.  Wall-clock time is
an explicit parameter: a `Clock` carries the three calendar anchors which
`budget_tracker.py` derives from `datetime.now()` (the current date, the
Monday starting the current week, and the first day of the current month);
the tracker only ever compares these anchors for equality.
-/

/-- Key strings used by the model catalog. -/
def premiumS : String := "premium"

def midS : String := "mid"

def openS : String := "open"

def ruleS : String := "rule"

def unknownS : String := "unknown"

/-- Per-tier configuration: the `models.<tier>` sub-dict of the config.
`enabled` defaults to false (`model_config.get('enabled', False)`),
`cost_per_1k_tokens` and `min_cost_per_call` are read with
defaults at their use sites, so they are kept as `Option ℚ`. -/
structure ModelCfg where
  enabled : Bool := false
  cost_per_1k_tokens : Option ℚ := none
  min_cost_per_call : Option ℚ := none
deriving DecidableEq, Repr

/-- The `budget` sub-dict of the config; every field is read with a
default (`budget_config.get('daily_limit', 10.0)` and so on). -/
structure BudgetCfg where
  daily_limit : Option ℚ := none
  weekly_limit : Option ℚ := none
  monthly_limit : Option ℚ := none
  warning_threshold : Option ℚ := none
  critical_threshold : Option ℚ := none
deriving DecidableEq, Repr

/-- The configuration dict consumed by the router components. -/
structure RouterConfig where
  models : List (String × ModelCfg) := []
  thresholds : List (String × ℚ) := []
  budget : BudgetCfg := {}
  complexity_weights : List (String × ℚ) := []
  fallback_order : List String := []
deriving DecidableEq, Repr

/-- Catalog construction, `ModelSelector._initialize_models`: the enabled
tiers of the config, with "rule" force-added when absent.  Only the tier
names matter for the claims; the mock client objects are dropped. -/
def initModels (cfg : RouterConfig) : List String :=
  let enabled := (cfg.models.filter (fun p => p.2.enabled)).map Prod.fst
  if ruleS ∈ enabled then enabled else enabled ++ [ruleS]

/-- The `ModelSelector` object: its config and the instantiated catalog. -/
structure ModelSelector where
  config : RouterConfig
  models : List String
deriving DecidableEq, Repr

/-- The `ModelSelector.__init__` constructor. -/
def ModelSelector.make (cfg : RouterConfig) : ModelSelector :=
  ⟨cfg, initModels cfg⟩

/-- `ModelSelector._can_afford_model`: remaining budget is at least the
tier's configured `min_cost_per_call` (default 0.001). -/
def ModelSelector.can_afford_model (s : ModelSelector) (model_type : String)
    (budget_remaining : ℚ) : Bool :=
  let model_config := (s.config.models.lookup model_type).getD {}
  let min_cost := model_config.min_cost_per_call.getD (1 / 1000)
  budget_remaining ≥ min_cost

/-- `ModelSelector.get_model_cost`: the tier's `cost_per_1k_tokens`
(default 0). -/
def ModelSelector.get_model_cost (s : ModelSelector) (model_type : String) : ℚ :=
  ((s.config.models.lookup model_type).getD {}).cost_per_1k_tokens.getD 0

/-- Accessing `self.models[name]` in Python: `none` models the `KeyError`
raised when the tier was not instantiated. -/
def ModelSelector.getTier (s : ModelSelector) (name : String) : Option String :=
  if name ∈ s.models then some name else none

/-- The two fields of the budget-status dict that `select_model` reads
(`is_critical`, `remaining`). -/
structure BudgetStatusIn where
  is_critical : Bool
  remaining : ℚ
deriving DecidableEq, Repr

/-- The selection thresholds, `self.thresholds.get('premium', 0.8)` and
friends. -/
def RouterConfig.premium_threshold (cfg : RouterConfig) : ℚ :=
  (cfg.thresholds.lookup premiumS).getD (8 / 10)

/-- Threshold `self.thresholds.get('mid', 0.5)`. -/
def RouterConfig.mid_threshold (cfg : RouterConfig) : ℚ :=
  (cfg.thresholds.lookup midS).getD (5 / 10)

/-- Threshold `self.thresholds.get('open', 0.2)`. -/
def RouterConfig.open_threshold (cfg : RouterConfig) : ℚ :=
  (cfg.thresholds.lookup openS).getD (2 / 10)

/-- `ModelSelector.select_model`, translated branch by branch.  The Python
returns `(name, self.models[name])`; here the result is the chosen tier
name, or `none` when the dict access would raise `KeyError`. -/
def ModelSelector.select_model (s : ModelSelector) (complexity : ℚ)
    (budget_status : BudgetStatusIn) : Option String :=
  let premium_threshold := s.config.premium_threshold
  let mid_threshold := s.config.mid_threshold
  let open_threshold := s.config.open_threshold
  let budget_critical := budget_status.is_critical
  let budget_remaining := budget_status.remaining
  if complexity > premium_threshold ∧ budget_critical = false
      ∧ s.can_afford_model premiumS budget_remaining then
    s.getTier premiumS
  else if complexity > mid_threshold ∧ s.can_afford_model midS budget_remaining then
    s.getTier midS
  else if complexity > mid_threshold ∧ budget_critical = false
      ∧ s.can_afford_model premiumS budget_remaining then
    s.getTier premiumS
  else if complexity > open_threshold ∧ s.can_afford_model openS budget_remaining then
    s.getTier openS
  else
    s.getTier ruleS

/-- Calendar anchors derived from one wall-clock instant: the value of
`datetime.now().date()`, `_get_week_start()` and
`datetime.now().replace(day=1).date()` at that instant.  The tracker only
compares anchors for equality, so they are abstract integers here. -/
structure Clock where
  date : ℤ
  weekStart : ℤ
  monthStart : ℤ
deriving DecidableEq, Repr

/-- The `ExpenseRecord` dataclass of `budget_tracker.py`. -/
structure ExpenseRecord where
  timestamp : Clock
  model_type : String
  cost : ℚ
  task_description : String
  success : Bool := true
deriving DecidableEq, Repr

/-- The `BudgetTracker` object's mutable state together with the
configuration values fixed at construction. -/
structure BudgetTracker where
  daily_budget : ℚ
  weekly_budget : ℚ
  monthly_budget : ℚ
  warning_threshold : ℚ
  critical_threshold : ℚ
  expenses : List ExpenseRecord
  daily_expenses : ℚ
  weekly_expenses : ℚ
  monthly_expenses : ℚ
  current_day : ℤ
  current_week : ℤ
  current_month : ℤ
deriving DecidableEq, Repr

/-- `BudgetTracker.__init__`: read limits and alert thresholds from the
`budget` section with defaults, start with an empty ledger and zero
counters, and anchor the three periods at the current instant. -/
def BudgetTracker.make (cfg : RouterConfig) (now : Clock) : BudgetTracker :=
  { daily_budget := cfg.budget.daily_limit.getD 10
    weekly_budget := cfg.budget.weekly_limit.getD 50
    monthly_budget := cfg.budget.monthly_limit.getD 200
    warning_threshold := cfg.budget.warning_threshold.getD 2
    critical_threshold := cfg.budget.critical_threshold.getD (1 / 2)
    expenses := []
    daily_expenses := 0
    weekly_expenses := 0
    monthly_expenses := 0
    current_day := now.date
    current_week := now.weekStart
    current_month := now.monthStart }

/-- Day step of `BudgetTracker._update_periods`. -/
def BudgetTracker.roll_day (t : BudgetTracker) (now : Clock) : BudgetTracker :=
  if now.date ≠ t.current_day then
    { t with daily_expenses := 0, current_day := now.date } else t

/-- Week step of `BudgetTracker._update_periods`. -/
def BudgetTracker.roll_week (t : BudgetTracker) (now : Clock) : BudgetTracker :=
  if now.weekStart ≠ t.current_week then
    { t with weekly_expenses := 0, current_week := now.weekStart } else t

/-- Month step of `BudgetTracker._update_periods`. -/
def BudgetTracker.roll_month (t : BudgetTracker) (now : Clock) : BudgetTracker :=
  if now.monthStart ≠ t.current_month then
    { t with monthly_expenses := 0, current_month := now.monthStart } else t

/-- `BudgetTracker._update_periods`: any period whose anchor differs from
the current instant's gets its counter zeroed and its anchor advanced; the
three checks run in sequence on the same instant. -/
def BudgetTracker.update_periods (t : BudgetTracker) (now : Clock) : BudgetTracker :=
  ((t.roll_day now).roll_week now).roll_month now

/-- `BudgetTracker.record_expense`: roll periods over first, then append
the record (description truncated to 100 characters) and add the cost to
all three period counters. -/
def BudgetTracker.record_expense (t : BudgetTracker) (now : Clock) (cost : ℚ)
    (model_type : String := unknownS) (task_description : String := "") :
    BudgetTracker :=
  let t := t.update_periods now
  let expense : ExpenseRecord :=
    { timestamp := now
      model_type := model_type
      cost := cost
      task_description := task_description.take 100 }
  { t with
    expenses := t.expenses ++ [expense]
    daily_expenses := t.daily_expenses + cost
    weekly_expenses := t.weekly_expenses + cost
    monthly_expenses := t.monthly_expenses + cost }

/-- The status dict returned by `check_budget_status`. -/
structure BudgetStatus where
  daily_remaining : ℚ
  weekly_remaining : ℚ
  monthly_remaining : ℚ
  daily_used : ℚ
  weekly_used : ℚ
  monthly_used : ℚ
  is_warning : Bool
  is_critical : Bool
  remaining : ℚ
deriving DecidableEq, Repr

/-- `BudgetTracker.check_budget_status`: rolls periods over (a state
change, hence the pair) and reports per-period remaining headroom,
warning/critical flags against the daily remaining, and the binding
minimum across the three periods. -/
def BudgetTracker.check_budget_status (t : BudgetTracker) (now : Clock) :
    BudgetTracker × BudgetStatus :=
  let t := t.update_periods now
  let daily_remaining := max 0 (t.daily_budget - t.daily_expenses)
  let weekly_remaining := max 0 (t.weekly_budget - t.weekly_expenses)
  let monthly_remaining := max 0 (t.monthly_budget - t.monthly_expenses)
  ⟨t,
    { daily_remaining := daily_remaining
      weekly_remaining := weekly_remaining
      monthly_remaining := monthly_remaining
      daily_used := t.daily_expenses
      weekly_used := t.weekly_expenses
      monthly_used := t.monthly_expenses
      is_warning := daily_remaining ≤ t.warning_threshold
      is_critical := daily_remaining ≤ t.critical_threshold
      remaining := min daily_remaining (min weekly_remaining monthly_remaining) }⟩

/-- `BudgetTracker.get_total_expenses`: the cost sum over the full ledger. -/
def BudgetTracker.get_total_expenses (t : BudgetTracker) : ℚ :=
  (t.expenses.map ExpenseRecord.cost).sum

/-- `BudgetTracker.reset_budgets`: clear the ledger and the counters and
re-anchor every period at the current instant. -/
def BudgetTracker.reset_budgets (t : BudgetTracker) (now : Clock) : BudgetTracker :=
  { t with
    expenses := []
    daily_expenses := 0
    weekly_expenses := 0
    monthly_expenses := 0
    current_day := now.date
    current_week := now.weekStart
    current_month := now.monthStart }

/-- One step of `get_model_expense_breakdown`'s accumulation: add `c` to
the entry keyed `k`, creating it at 0 first when absent. -/
def breakdownAdd (b : List (String × ℚ)) (k : String) (c : ℚ) :
    List (String × ℚ) :=
  match b.lookup k with
  | some v => b.map (fun p => if p.1 = k then (k, v + c) else p)
  | none => b ++ [(k, c)]

/-- `BudgetTracker.get_model_expense_breakdown`: per-tier cost totals over
the ledger, as the insertion-ordered dict the Python loop builds. -/
def BudgetTracker.get_model_expense_breakdown (t : BudgetTracker) :
    List (String × ℚ) :=
  t.expenses.foldl (fun b e => breakdownAdd b e.model_type e.cost) []

/-- Feature-name strings of `complexity_scorer.py`. -/
def wordCountS : String := "word_count"

def appCountS : String := "app_count"

def stepCountS : String := "step_count_estimate"

def hsrS : String := "historical_success_rate"

def stcS : String := "similar_tasks_complexity"

def uslS : String := "user_skill_level"

/-- Python's `str.lower()` on the ASCII text the scorer handles. -/
def pyLower (s : String) : String := s.map Char.toLower

/-- Whether `w` begins the character list `l`. -/
def beginsWith : List Char → List Char → Bool
  | [], _ => true
  | _ :: _, [] => false
  | a :: as, b :: bs => a = b && beginsWith as bs

/-- Python's substring test `w in l` on character lists. -/
def hasSub (w : List Char) : List Char → Bool
  | [] => w.isEmpty
  | c :: cs => beginsWith w (c :: cs) || hasSub w cs

/-- Python's `needle in hay` for strings. -/
def strHas (hay needle : String) : Bool := hasSub needle.toList hay.toList

/-- Drops everything up to and including the first occurrence of `w`;
`none` when `w` does not occur. -/
def dropFirstHit (w : List Char) : List Char → Option (List Char)
  | [] => if w.isEmpty then some [] else none
  | c :: cs =>
      if beginsWith w (c :: cs) then some ((c :: cs).drop w.length)
      else dropFirstHit w cs

/-- Whether the words occur in order, disjointly, inside `l`.  Taking the
leftmost occurrence at each step is complete for existence, so this is
`re.search` of the pattern `w1.*w2.*…` on a newline-free string. -/
def seqAt : List (List Char) → List Char → Bool
  | [], _ => true
  | w :: ws, l =>
      match dropFirstHit w l with
      | some rest => seqAt ws rest
      | none => false

/-- Python `re.search` of a pattern `w1.*w2.*…` on an arbitrary string:
`.` does not match a newline, so the whole match lives inside one line. -/
def seqSearch (ws : List String) (s : String) : Bool :=
  (s.toList.splitOnP (fun c => c = '\n')).any
    (fun line => seqAt (ws.map String.toList) line)

/-- Word count of Python's no-argument `str.split()`: split on whitespace
runs, dropping empty pieces. -/
def wordCount (s : String) : ℕ :=
  ((s.toList.splitOnP (fun c => c.isWhitespace)).filter (fun w => ¬w.isEmpty)).length

/-- The app names of `ComplexityScorer._count_apps`. -/
def appNames : List String :=
  ["chrome", "word", "excel", "notepad", "calculator",
   "outlook", "explorer", "paint", "powerpoint"]

/-- `ComplexityScorer._count_apps`. -/
def count_apps (dl : String) : ℕ := (appNames.filter (fun a => strHas dl a)).length

/-- `ComplexityScorer._has_inter_app_dependency`: the five regex patterns,
each a sequence of literals separated by `.*`. -/
def has_inter_app_dependency (dl : String) : Bool :=
  [["from", "to"], ["copy", "from", "to"],
   ["import", "into"], ["export", "from", "to"],
   ["search", "and", "create"]].any (fun p => seqSearch p dl)

/-- `ComplexityScorer._requires_text_processing`. -/
def requires_text_processing (dl : String) : Bool :=
  ["edit", "format", "bold", "italic", "underline",
   "align", "paragraph", "font", "style"].any (fun k => strHas dl k)

/-- `ComplexityScorer._requires_navigation`. -/
def requires_navigation (dl : String) : Bool :=
  ["open", "close", "navigate", "go to", "click",
   "select", "find", "search", "browse"].any (fun k => strHas dl k)

/-- `ComplexityScorer._requires_data_manipulation`. -/
def requires_data_manipulation (dl : String) : Bool :=
  ["calculate", "sum", "average", "sort", "filter",
   "analyze", "graph", "chart", "formula", "function"].any (fun k => strHas dl k)

/-- Count of maximal runs of sentence delimiters `.!?`; the Bool carries
whether the scan is inside a run. -/
def delimRuns : List Char → Bool → ℕ
  | [], _ => 0
  | c :: cs, inRun =>
      if c = '.' ∨ c = '!' ∨ c = '?' then
        if inRun then delimRuns cs true else 1 + delimRuns cs true
      else delimRuns cs false

/-- Length of `re.split(r'[.!?]+', s)`: one more than the number of
delimiter runs (empty pieces are kept by `re.split`). -/
def sentenceCount (s : String) : ℕ := delimRuns s.toList false + 1

/-- The action verbs of `ComplexityScorer._estimate_step_count`. -/
def actionVerbs : List String :=
  ["click", "type", "open", "close", "save",
   "create", "delete", "move", "copy", "paste"]

/-- `ComplexityScorer._estimate_step_count`: the larger of the sentence
count and the number of recognized action verbs present. -/
def estimate_step_count (dl : String) : ℕ :=
  max (sentenceCount dl) ((actionVerbs.filter (fun v => strHas dl v)).length)

/-- `ComplexityScorer._has_conditional_logic`. -/
def has_conditional_logic (dl : String) : Bool :=
  ["if", "then", "else", "when", "unless",
   "depending on", "based on", "condition"].any (fun k => strHas dl k)

/-- Values a feature dict can hold: Python booleans, numbers (ints and
floats both embed into `ℚ`), or anything else (a malformed context can put
an arbitrary non-numeric object in the dict). -/
inductive PyVal where
  | pyBool : Bool → PyVal
  | pyNum : ℚ → PyVal
  | pyOther : PyVal
deriving DecidableEq, Repr

/-- A Python dict of feature or context values. -/
abbrev PyDict := List (String × PyVal)

/-- `ComplexityScorer._extract_features`: the eight description-derived
features, plus the three context features (defaulting to 0.5 when their
key is absent) when a context dict is present and truthy (a `None` context
and an empty dict both skip the update, as `if context:` does). -/
def extract_features (description : String) (context : Option PyDict) : PyDict :=
  let dl := pyLower description
  let base : PyDict :=
    [(wordCountS, PyVal.pyNum (wordCount description)),
     (appCountS, PyVal.pyNum (count_apps dl)),
     ("has_inter_app_dependency", PyVal.pyBool (has_inter_app_dependency dl)),
     ("requires_text_processing", PyVal.pyBool (requires_text_processing dl)),
     ("requires_navigation", PyVal.pyBool (requires_navigation dl)),
     ("requires_data_manipulation", PyVal.pyBool (requires_data_manipulation dl)),
     (stepCountS, PyVal.pyNum (estimate_step_count dl)),
     ("has_conditional_logic", PyVal.pyBool (has_conditional_logic dl))]
  match context with
  | some ctx =>
      if ctx.isEmpty then base
      else base ++
        [(hsrS, (ctx.lookup hsrS).getD (PyVal.pyNum (1 / 2))),
         (stcS, (ctx.lookup stcS).getD (PyVal.pyNum (1 / 2))),
         (uslS, (ctx.lookup uslS).getD (PyVal.pyNum (1 / 2)))]
  | none => base

/-- `ComplexityScorer._normalize_feature`: booleans to 0/1, numbers by the
feature-specific rules, anything else to the neutral 0.5. -/
def normalize_feature (feature_name : String) (value : PyVal) : ℚ :=
  match value with
  | PyVal.pyBool v => if v then 1 else 0
  | PyVal.pyNum v =>
      if feature_name = wordCountS then min (v / 50) 1
      else if feature_name = appCountS then min (v / 5) 1
      else if feature_name = stepCountS then min (v / 20) 1
      else if feature_name = hsrS then 1 - v
      else min v 1
  | PyVal.pyOther => 1 / 2

/-- The documented default weights of `_calculate_weighted_score`. -/
def default_weights : List (String × ℚ) :=
  [(wordCountS, 1 / 10), (appCountS, 2 / 10),
   ("has_inter_app_dependency", 3 / 10),
   ("requires_text_processing", 15 / 100),
   ("requires_navigation", 1 / 10),
   ("requires_data_manipulation", 2 / 10),
   (stepCountS, 15 / 100),
   ("has_conditional_logic", 25 / 100),
   (hsrS, 2 / 10)]

/-- The dict merge `{**default_weights, **self.weights}`: default keys in
order with overridden values, then the config-only keys. -/
def mergedWeights (cw : List (String × ℚ)) : List (String × ℚ) :=
  (default_weights.map (fun p => (p.1, (cw.lookup p.1).getD p.2)))
    ++ cw.filter (fun p => (default_weights.lookup p.1).isNone)

/-- `ComplexityScorer._calculate_weighted_score`: weighted sum of the
normalized values of the features that carry a weight, divided by the
weight actually applied when that is positive. -/
def calculate_weighted_score (cw : List (String × ℚ)) (features : PyDict) : ℚ :=
  let weights := mergedWeights cw
  let applicable := weights.filter (fun p => (features.lookup p.1).isSome)
  let score :=
    (applicable.map
      (fun p => normalize_feature p.1 ((features.lookup p.1).getD PyVal.pyOther) * p.2)).sum
  let total_weight := (applicable.map Prod.snd).sum
  if total_weight > 0 then score / total_weight else score

/-- `ComplexityScorer._sigmoid_normalize`: the logistic squash centered at
0.5 with steepness 10, over the reals. -/
noncomputable def sigmoid_normalize (x : ℚ) : ℝ :=
  1 / (1 + Real.exp (-10 * ((x : ℝ) - 1 / 2)))

/-- The `ScoringRecord` appended to the scorer's history on every call. -/
structure ScoringRecord where
  description : String
  features : PyDict
  score : ℝ
  context : Option PyDict

/-- The `ComplexityScorer` object: its configured weight overrides and its
in-memory scoring history. -/
structure ComplexityScorer where
  weights : List (String × ℚ)
  history : List ScoringRecord

/-- `ComplexityScorer.__init__`. -/
def ComplexityScorer.make (cfg : RouterConfig) : ComplexityScorer :=
  ⟨cfg.complexity_weights, []⟩

/-- `ComplexityScorer.calculate_complexity`: extract features, take the
weighted score, squash, clip to [0,1], append a history record, and return
the score. -/
noncomputable def ComplexityScorer.calculate_complexity (sc : ComplexityScorer)
    (task_description : String) (context : Option PyDict := none) :
    ℝ × ComplexityScorer :=
  let features := extract_features task_description context
  let score := calculate_weighted_score sc.weights features
  let normalized_score := max 0 (min 1 (sigmoid_normalize score))
  ⟨normalized_score,
   { sc with history := sc.history ++
      [{ description := task_description, features := features,
         score := normalized_score, context := context }] }⟩

/-- `ComplexityScorer.update_model_performance`: the feedback hook; its
only state change is trimming the history to the most recent 1000 entries
when it holds more. -/
def ComplexityScorer.update_model_performance (sc : ComplexityScorer)
    (_task_description : String) (_model_type : String) (_success : Bool) :
    ComplexityScorer :=
  if sc.history.length > 1000 then
    { sc with history := sc.history.drop (sc.history.length - 1000) }
  else sc

/-- The `RouterAgent` object of `router_init.py`: one scorer, one tracker
and one selector, plus the routing history (whose entries no claim
inspects beyond existence, so it is kept abstract as a count). -/
structure RouterAgent where
  config : RouterConfig
  complexity_scorer : ComplexityScorer
  budget_tracker : BudgetTracker
  model_selector : ModelSelector
  routing_history_len : ℕ

/-- `RouterAgent.__init__`. -/
def RouterAgent.make (cfg : RouterConfig) (now : Clock) : RouterAgent :=
  { config := cfg
    complexity_scorer := ComplexityScorer.make cfg
    budget_tracker := BudgetTracker.make cfg now
    model_selector := ModelSelector.make cfg
    routing_history_len := 0 }

/-- `RouterAgent.update_routing_performance`: feed the outcome to the
scorer's hook, and for a non-"rule" tier record that tier's configured
cost as an expense — `record_expense(cost)` with its defaults, so the
record carries tier "unknown" and an empty description. -/
def RouterAgent.update_routing_performance (r : RouterAgent) (now : Clock)
    (subtask_description : String) (model_type : String) (success : Bool) :
    RouterAgent :=
  let scorer :=
    r.complexity_scorer.update_model_performance subtask_description model_type success
  let tracker :=
    if model_type ≠ ruleS then
      r.budget_tracker.record_expense now (r.model_selector.get_model_cost model_type)
    else r.budget_tracker
  { r with complexity_scorer := scorer, budget_tracker := tracker }

/-- The tracker's three period anchors agree with the instant `now`; under
this condition `_update_periods` is a no-op, which is what "within one
period, no boundary crossing" means. -/
def BudgetTracker.anchorsMatch (t : BudgetTracker) (now : Clock) : Prop :=
  t.current_day = now.date ∧ t.current_week = now.weekStart
    ∧ t.current_month = now.monthStart

/-- State invariant for the ledger/counter claims: every ledger cost is
non-negative, the counters are non-negative, and each counter is bounded
by the ledger total. -/
def TrackerInv (t : BudgetTracker) : Prop :=
  (∀ e ∈ t.expenses, 0 ≤ e.cost)
    ∧ 0 ≤ t.daily_expenses ∧ 0 ≤ t.weekly_expenses ∧ 0 ≤ t.monthly_expenses
    ∧ t.daily_expenses ≤ t.get_total_expenses
    ∧ t.weekly_expenses ≤ t.get_total_expenses
    ∧ t.monthly_expenses ≤ t.get_total_expenses

/-- One observable operation on a `BudgetTracker`; each carries the
wall-clock instant at which it runs, so period rollovers are the
instants changing between operations. -/
inductive BOp where
  | record (now : Clock) (cost : ℚ) (model_type : String) (task_description : String)
  | check (now : Clock)
  | reset (now : Clock)

/-- An operation's cost is non-negative (vacuous for the non-recording
operations). -/
def BOp.nonneg : BOp → Prop
  | .record _ c _ _ => 0 ≤ c
  | .check _ => True
  | .reset _ => True

/-- Runs one operation (for `check_budget_status` only its state effect
matters here). -/
def applyOp (t : BudgetTracker) : BOp → BudgetTracker
  | .record now c m d => t.record_expense now c m d
  | .check now => (t.check_budget_status now).1
  | .reset now => t.reset_budgets now

/-- Runs a whole operation sequence. -/
def runOps (t : BudgetTracker) (ops : List BOp) : BudgetTracker :=
  ops.foldl applyOp t

/-- A sequence of `record_expense` calls, each with its instant, cost,
tier and description. -/
def recordAll (t : BudgetTracker) (xs : List (Clock × ℚ × String × String)) :
    BudgetTracker :=
  xs.foldl (fun t x => t.record_expense x.1 x.2.1 x.2.2.1 x.2.2.2) t

/-- A sequence of `update_routing_performance` calls, each with its
instant, description, tier and success flag. -/
def updateAll (r : RouterAgent) (xs : List (Clock × String × String × Bool)) :
    RouterAgent :=
  xs.foldl (fun r x => r.update_routing_performance x.1 x.2.1 x.2.2.1 x.2.2.2) r

/-- A fixed instant used by the concrete scenarios. -/
def clk0 : Clock := ⟨0, 0, 0⟩

/-- An instant in a different day, week and month than `clk0`. -/
def clk1 : Clock := ⟨1, 1, 1⟩

/-- The configuration of claim C2's scenario: `daily_limit=10`,
`warning_threshold=2`, `critical_threshold=0.5`. -/
def c2cfg : RouterConfig :=
  { budget := { daily_limit := some 10, warning_threshold := some 2,
                critical_threshold := some (1 / 2) } }

/-- The configuration of claim C8's scenario: thresholds
`{premium: 0.8, mid: 0.5, open: 0.2}`, premium `min_cost_per_call` 0.001,
the mid tier's floor left as a parameter and the open tier's floor left
unconfigured (hence the 0.001 default). -/
def c8cfg (midMin : Option ℚ) : RouterConfig :=
  { models := [(premiumS, { enabled := true, min_cost_per_call := some (1 / 1000) }),
               (midS, { enabled := true, min_cost_per_call := midMin }),
               (openS, { enabled := true })],
    thresholds := [(premiumS, 8 / 10), (midS, 5 / 10), (openS, 2 / 10)] }

/-- A configuration enabling every catalog tier, used by the witnesses. -/
def allcfg : RouterConfig :=
  { models := [(premiumS, { enabled := true }), (midS, { enabled := true }),
               (openS, { enabled := true }), (ruleS, { enabled := true })],
    thresholds := [(premiumS, 8 / 10), (midS, 5 / 10), (openS, 2 / 10)] }

/-- The `record_expense` fold used by the fixed-clock scenarios, with the
call's default tier and description. -/
def recordCosts (t : BudgetTracker) (now : Clock) (costs : List ℚ) : BudgetTracker :=
  costs.foldl (fun t c => t.record_expense now c) t

theorem rule_mem_initModels (cfg : RouterConfig) : ruleS ∈ initModels cfg := by
  unfold initModels
  by_cases h : ruleS ∈ (cfg.models.filter (fun p => p.2.enabled)).map Prod.fst
  · simp [h]
  · simp [h]

theorem getTier_of_mem (s : ModelSelector) (name : String) (h : name ∈ s.models) :
    s.getTier name = some name := by
  simp [ModelSelector.getTier, h]

theorem update_periods_spec (t : BudgetTracker) (now : Clock) :
    (t.update_periods now).expenses = t.expenses
    ∧ (t.update_periods now).daily_budget = t.daily_budget
    ∧ (t.update_periods now).weekly_budget = t.weekly_budget
    ∧ (t.update_periods now).monthly_budget = t.monthly_budget
    ∧ (t.update_periods now).warning_threshold = t.warning_threshold
    ∧ (t.update_periods now).critical_threshold = t.critical_threshold
    ∧ ((t.update_periods now).daily_expenses = t.daily_expenses
        ∨ (t.update_periods now).daily_expenses = 0)
    ∧ ((t.update_periods now).weekly_expenses = t.weekly_expenses
        ∨ (t.update_periods now).weekly_expenses = 0)
    ∧ ((t.update_periods now).monthly_expenses = t.monthly_expenses
        ∨ (t.update_periods now).monthly_expenses = 0) := by
  unfold BudgetTracker.update_periods BudgetTracker.roll_day BudgetTracker.roll_week
    BudgetTracker.roll_month
  by_cases h1 : now.date ≠ t.current_day
    <;> by_cases h2 : now.weekStart ≠ t.current_week
    <;> by_cases h3 : now.monthStart ≠ t.current_month
    <;> simp [h1, h2, h3]

theorem update_periods_of_match (t : BudgetTracker) (now : Clock)
    (h : t.anchorsMatch now) : t.update_periods now = t := by
  obtain ⟨h1, h2, h3⟩ := h
  unfold BudgetTracker.update_periods BudgetTracker.roll_day BudgetTracker.roll_week
    BudgetTracker.roll_month
  simp [h1, h2, h3]

theorem record_expense_total (t : BudgetTracker) (now : Clock) (c : ℚ) (m d : String) :
    (t.record_expense now c m d).get_total_expenses = t.get_total_expenses + c := by
  unfold BudgetTracker.record_expense BudgetTracker.get_total_expenses
  simp [(update_periods_spec t now).1]

theorem recordAll_total (xs : List (Clock × ℚ × String × String)) :
    ∀ t : BudgetTracker, (recordAll t xs).get_total_expenses
      = t.get_total_expenses + (xs.map (fun x => x.2.1)).sum := by
  induction xs with
  | nil => intro t; simp [recordAll]
  | cons x xs ih =>
      intro t
      have step : recordAll t (x :: xs)
          = recordAll (t.record_expense x.1 x.2.1 x.2.2.1 x.2.2.2) xs := rfl
      rw [step, ih, record_expense_total]
      simp
      ring

theorem make_total (cfg : RouterConfig) (now : Clock) :
    (BudgetTracker.make cfg now).get_total_expenses = 0 := by
  simp [BudgetTracker.make, BudgetTracker.get_total_expenses]

/-- C6: after every call to the scorer's feedback hook
`update_model_performance`, the in-memory scoring history has length at
most 1000, whatever the prior history (hence whatever sequence of
`calculate_complexity` calls produced it). -/
theorem C6_feedback_caps_history (sc : ComplexityScorer)
    (d m : String) (s : Bool) :
    (sc.update_model_performance d m s).history.length ≤ 1000 := by
  unfold ComplexityScorer.update_model_performance
  split
  · next h => simp; omega
  · next h => omega

/-- C9: for every sequence of `record_expense` calls with non-negative
costs starting from a freshly constructed tracker (equivalently, from the
state a reset leaves behind), `get_total_expenses()` is exactly the sum of
the recorded costs. -/
theorem C9_total_is_sum (cfg : RouterConfig) (now0 : Clock)
    (xs : List (Clock × ℚ × String × String)) (_h : ∀ x ∈ xs, 0 ≤ x.2.1) :
    (recordAll (BudgetTracker.make cfg now0) xs).get_total_expenses
      = (xs.map (fun x => x.2.1)).sum := by
  rw [recordAll_total, make_total, zero_add]

/-- Witness for C9 at a concrete two-expense run. -/
theorem C9_total_is_sum_witness :
    (recordAll (BudgetTracker.make {} clk0)
        [(clk0, 3 / 2, premiumS, "a"), (clk1, 1 / 4, midS, "b")]).get_total_expenses
      = 7 / 4 := by
  have h := C9_total_is_sum {} clk0
    [(clk0, 3 / 2, premiumS, "a"), (clk1, 1 / 4, midS, "b")] (by norm_num)
  rw [h]
  norm_num

set_option maxRecDepth 4000 in
theorem take100_empty : ("" : String).take 100 = "" := by decide

theorem update_routing_expenses (r : RouterAgent) (now : Clock)
    (d tier : String) (success : Bool) :
    (r.update_routing_performance now d tier success).budget_tracker.expenses
      = if tier ≠ ruleS
        then r.budget_tracker.expenses
          ++ [{ timestamp := now, model_type := unknownS,
                cost := r.model_selector.get_model_cost tier,
                task_description := "", success := true }]
        else r.budget_tracker.expenses := by
  unfold RouterAgent.update_routing_performance BudgetTracker.record_expense
  by_cases h : tier = ruleS
  · simp [h]
  · simp only [h, ne_eq, not_false_iff, if_true, ite_true, if_neg, not_true]
    rw [(update_periods_spec r.budget_tracker now).1, take100_empty]

/-- C4: `update_routing_performance` appends to the tracker's ledger an
expense of exactly the tier's configured per-unit cost precisely when the
tier is not "rule" — for either success value — and appends nothing when
the tier is "rule". -/
theorem C4_cost_recorded_iff_not_rule (r : RouterAgent) (now : Clock)
    (d tier : String) (success : Bool) :
    (r.update_routing_performance now d tier success).budget_tracker.expenses
      = if tier ≠ ruleS
        then r.budget_tracker.expenses
          ++ [{ timestamp := now, model_type := unknownS,
                cost := r.model_selector.get_model_cost tier,
                task_description := "", success := true }]
        else r.budget_tracker.expenses :=
  update_routing_expenses r now d tier success

theorem breakdownAdd_single (k : String) (a c : ℚ) :
    breakdownAdd [(k, a)] k c = [(k, a + c)] := by
  simp [breakdownAdd]

theorem foldl_breakdown_same (k : String) :
    ∀ (es : List ExpenseRecord) (a : ℚ), (∀ e ∈ es, e.model_type = k) →
      es.foldl (fun b e => breakdownAdd b e.model_type e.cost) [(k, a)]
        = [(k, a + (es.map ExpenseRecord.cost).sum)] := by
  intro es
  induction es with
  | nil => intro a _; simp
  | cons e es ih =>
      intro a h
      have hk : e.model_type = k := h e (by simp)
      have step : (e :: es).foldl (fun b e => breakdownAdd b e.model_type e.cost) [(k, a)]
          = es.foldl (fun b e => breakdownAdd b e.model_type e.cost)
              (breakdownAdd [(k, a)] e.model_type e.cost) := rfl
      rw [step, hk, breakdownAdd_single, ih (a + e.cost) (fun e he => h e (by simp [he]))]
      simp
      ring

theorem breakdown_of_all_same (t : BudgetTracker) (k : String)
    (h : ∀ e ∈ t.expenses, e.model_type = k) :
    t.get_model_expense_breakdown
      = if t.expenses.isEmpty then [] else [(k, t.get_total_expenses)] := by
  unfold BudgetTracker.get_model_expense_breakdown BudgetTracker.get_total_expenses
  match hes : t.expenses with
  | [] => simp
  | e :: es =>
      have hk : e.model_type = k := h e (by simp [hes])
      have step : (e :: es).foldl (fun b e => breakdownAdd b e.model_type e.cost) []
          = es.foldl (fun b e => breakdownAdd b e.model_type e.cost)
              [(e.model_type, e.cost)] := by
        simp [breakdownAdd]
      rw [step, hk, foldl_breakdown_same k es e.cost
        (fun e he => h e (by simp [hes, he]))]
      simp

theorem updateAll_unknown (xs : List (Clock × String × String × Bool)) :
    ∀ r : RouterAgent,
      (∀ e ∈ r.budget_tracker.expenses,
        e.model_type = unknownS ∧ e.task_description = "") →
      ∀ e ∈ (updateAll r xs).budget_tracker.expenses,
        e.model_type = unknownS ∧ e.task_description = "" := by
  induction xs with
  | nil => intro r h; exact h
  | cons x xs ih =>
      intro r h
      have step : updateAll r (x :: xs)
          = updateAll (r.update_routing_performance x.1 x.2.1 x.2.2.1 x.2.2.2) xs := rfl
      rw [step]
      apply ih
      intro e he
      rw [update_routing_expenses] at he
      by_cases hx : x.2.2.1 ≠ ruleS
      · rw [if_pos hx] at he
        rcases List.mem_append.1 he with h1 | h2
        · exact h e h1
        · simp at h2
          subst h2
          exact ⟨rfl, rfl⟩
      · rw [if_neg hx] at he
        exact h e he

/-- C10: starting from a fresh router, every expense the router's
`update_routing_performance` records carries tier "unknown" and an empty
task description, so the breakdown keys router-recorded spend only under
"unknown": its "unknown" entry equals the ledger total and no other key
exists. -/
theorem C10_router_spend_attributed_unknown (cfg : RouterConfig) (now0 : Clock)
    (xs : List (Clock × String × String × Bool)) :
    ((updateAll (RouterAgent.make cfg now0) xs).budget_tracker.expenses.all
        (fun e => e.model_type == unknownS && e.task_description == "")) = true
    ∧ ((updateAll (RouterAgent.make cfg now0) xs).budget_tracker.get_model_expense_breakdown.all
        (fun p => p.1 == unknownS)) = true
    ∧ (((updateAll (RouterAgent.make cfg now0) xs).budget_tracker.get_model_expense_breakdown.lookup
          unknownS).getD 0
        = (updateAll (RouterAgent.make cfg now0) xs).budget_tracker.get_total_expenses) := by
  have h0 : ∀ e ∈ (RouterAgent.make cfg now0).budget_tracker.expenses,
      e.model_type = unknownS ∧ e.task_description = "" := by
    simp [RouterAgent.make, BudgetTracker.make]
  have H := updateAll_unknown xs (RouterAgent.make cfg now0) h0
  have hbd := breakdown_of_all_same
    (updateAll (RouterAgent.make cfg now0) xs).budget_tracker unknownS
    (fun e he => (H e he).1)
  refine ⟨?_, ?_, ?_⟩
  · rw [List.all_eq_true]
    intro e he
    have := H e he
    simp [this.1, this.2]
  · rw [hbd]
    by_cases hemp : (updateAll (RouterAgent.make cfg now0) xs).budget_tracker.expenses.isEmpty
    · simp [hemp]
    · simp [hemp]
  · rw [hbd]
    by_cases hemp : (updateAll (RouterAgent.make cfg now0) xs).budget_tracker.expenses.isEmpty
    · have : (updateAll (RouterAgent.make cfg now0) xs).budget_tracker.expenses = [] :=
        List.isEmpty_iff.1 hemp
      simp [hemp, BudgetTracker.get_total_expenses, this]
    · simp [hemp]

theorem record_expense_of_match (t : BudgetTracker) (now : Clock) (c : ℚ)
    (h : t.anchorsMatch now) :
    t.record_expense now c
      = { t with
          expenses := t.expenses ++
            [{ timestamp := now, model_type := unknownS, cost := c,
               task_description := "", success := true }]
          daily_expenses := t.daily_expenses + c
          weekly_expenses := t.weekly_expenses + c
          monthly_expenses := t.monthly_expenses + c } := by
  unfold BudgetTracker.record_expense
  rw [update_periods_of_match t now h, take100_empty]

theorem anchorsMatch_record (t : BudgetTracker) (now : Clock) (c : ℚ)
    (h : t.anchorsMatch now) : (t.record_expense now c).anchorsMatch now := by
  rw [record_expense_of_match t now c h]
  exact h

theorem recordCosts_spec (now : Clock) (costs : List ℚ) :
    ∀ t : BudgetTracker, t.anchorsMatch now →
      (recordCosts t now costs).anchorsMatch now
      ∧ (recordCosts t now costs).daily_expenses = t.daily_expenses + costs.sum
      ∧ (recordCosts t now costs).daily_budget = t.daily_budget
      ∧ (recordCosts t now costs).warning_threshold = t.warning_threshold
      ∧ (recordCosts t now costs).critical_threshold = t.critical_threshold := by
  induction costs with
  | nil => intro t h; simp [recordCosts, h]
  | cons c cs ih =>
      intro t h
      have step : recordCosts t now (c :: cs) = recordCosts (t.record_expense now c) now cs := rfl
      have h' := anchorsMatch_record t now c h
      obtain ⟨a1, a2, a3, a4, a5⟩ := ih (t.record_expense now c) h'
      rw [step]
      refine ⟨a1, ?_, ?_, ?_, ?_⟩
      · rw [a2, record_expense_of_match t now c h]
        simp
        ring
      · rw [a3, record_expense_of_match t now c h]
      · rw [a4, record_expense_of_match t now c h]
      · rw [a5, record_expense_of_match t now c h]

/-- C2 counterexample: in the stated scenario (daily_limit 10, warning
threshold 2, critical threshold 0.5), a single same-day expense of 9.6
leaves daily remaining 0.4 ≤ 0.5, so `check_budget_status` reports
`is_critical = True`, not the claimed False. -/
theorem C2_counterexample :
    (((BudgetTracker.make c2cfg clk0).record_expense clk0 (96 / 10)).check_budget_status
        clk0).2.is_critical = true := by
  have hm : (BudgetTracker.make c2cfg clk0).anchorsMatch clk0 := ⟨rfl, rfl, rfl⟩
  have ha := anchorsMatch_record (BudgetTracker.make c2cfg clk0) clk0 (96 / 10) hm
  unfold BudgetTracker.check_budget_status
  rw [update_periods_of_match _ _ ha,
    record_expense_of_match (BudgetTracker.make c2cfg clk0) clk0 (96 / 10) hm]
  simp [BudgetTracker.make, c2cfg]
  norm_num

/-- C2 as amended: with the scenario configuration, expenses summing to
9.6 within the day give `is_warning = True` and also `is_critical = True`
(remaining 0.4 is below both thresholds), and expenses summing to 9.51
give `is_critical = True`. -/
theorem C2_amended_status (costs costs' : List ℚ)
    (h : costs.sum = 96 / 10) (h' : costs'.sum = 951 / 100) :
    (((recordCosts (BudgetTracker.make c2cfg clk0) clk0 costs).check_budget_status
          clk0).2.is_warning = true
      ∧ ((recordCosts (BudgetTracker.make c2cfg clk0) clk0 costs).check_budget_status
          clk0).2.is_critical = true)
    ∧ ((recordCosts (BudgetTracker.make c2cfg clk0) clk0 costs').check_budget_status
          clk0).2.is_critical = true := by
  have hm : (BudgetTracker.make c2cfg clk0).anchorsMatch clk0 := ⟨rfl, rfl, rfl⟩
  obtain ⟨a1, a2, a3, a4, a5⟩ := recordCosts_spec clk0 costs _ hm
  obtain ⟨b1, b2, b3, b4, b5⟩ := recordCosts_spec clk0 costs' _ hm
  unfold BudgetTracker.check_budget_status
  rw [update_periods_of_match _ _ a1, update_periods_of_match _ _ b1]
  simp only [a2, a3, a4, a5, b2, b3, b4, b5, h, h']
  refine ⟨⟨?_, ?_⟩, ?_⟩
  all_goals
    simp [BudgetTracker.make, c2cfg]
    norm_num

/-- Witness for the amended C2 at the concrete one-expense runs. -/
theorem C2_amended_status_witness :
    (((recordCosts (BudgetTracker.make c2cfg clk0) clk0 [96 / 10]).check_budget_status
          clk0).2.is_warning = true
      ∧ ((recordCosts (BudgetTracker.make c2cfg clk0) clk0 [96 / 10]).check_budget_status
          clk0).2.is_critical = true)
    ∧ ((recordCosts (BudgetTracker.make c2cfg clk0) clk0 [951 / 100]).check_budget_status
          clk0).2.is_critical = true :=
  C2_amended_status [96 / 10] [951 / 100] (by simp) (by simp)

/-- C8: with thresholds {premium 0.8, mid 0.5, open 0.2}, complexity 0.85,
budget not critical and premium's min per-call cost 0.001 (mid's floor
arbitrary, open's left at its 0.001 default), remaining 5.0 selects
"premium", while remaining 0.0005 selects "mid" exactly when the mid tier
is affordable and "rule" otherwise. -/
theorem C8_scenario (midMin : Option ℚ) :
    (ModelSelector.make (c8cfg midMin)).select_model (17 / 20) ⟨false, 5⟩ = some premiumS
    ∧ (ModelSelector.make (c8cfg midMin)).select_model (17 / 20) ⟨false, 1 / 2000⟩
        = if midMin.getD (1 / 1000) ≤ 1 / 2000 then some midS else some ruleS := by
  constructor
  · simp [ModelSelector.select_model, ModelSelector.make, c8cfg,
      ModelSelector.can_afford_model, ModelSelector.getTier, initModels,
      RouterConfig.premium_threshold, RouterConfig.mid_threshold,
      RouterConfig.open_threshold, List.lookup, premiumS, midS, openS, ruleS]
    norm_num
  · by_cases hq : midMin.getD (1 / 1000) ≤ 1 / 2000
    · simp [hq, ModelSelector.select_model, ModelSelector.make, c8cfg,
        ModelSelector.can_afford_model, ModelSelector.getTier, initModels,
        RouterConfig.premium_threshold, RouterConfig.mid_threshold,
        RouterConfig.open_threshold, List.lookup, premiumS, midS, openS, ruleS]
      norm_num
    · simp [hq, ModelSelector.select_model, ModelSelector.make, c8cfg,
        ModelSelector.can_afford_model, ModelSelector.getTier, initModels,
        RouterConfig.premium_threshold, RouterConfig.mid_threshold,
        RouterConfig.open_threshold, List.lookup, premiumS, midS, openS, ruleS]
      norm_num

theorem record_expense_of_match_full (t : BudgetTracker) (now : Clock) (c : ℚ)
    (m d : String) (h : t.anchorsMatch now) :
    t.record_expense now c m d
      = { t with
          expenses := t.expenses ++
            [{ timestamp := now, model_type := m, cost := c,
               task_description := d.take 100, success := true }]
          daily_expenses := t.daily_expenses + c
          weekly_expenses := t.weekly_expenses + c
          monthly_expenses := t.monthly_expenses + c } := by
  unfold BudgetTracker.record_expense
  rw [update_periods_of_match t now h]

theorem update_periods_rolled_day (t : BudgetTracker) (now : Clock)
    (h : now.date ≠ t.current_day) : (t.update_periods now).daily_expenses = 0 := by
  unfold BudgetTracker.update_periods BudgetTracker.roll_day BudgetTracker.roll_week
    BudgetTracker.roll_month
  by_cases h2 : now.weekStart ≠ t.current_week
    <;> by_cases h3 : now.monthStart ≠ t.current_month
    <;> simp [h, h2, h3]

theorem update_periods_rolled_week (t : BudgetTracker) (now : Clock)
    (h : now.weekStart ≠ t.current_week) : (t.update_periods now).weekly_expenses = 0 := by
  unfold BudgetTracker.update_periods BudgetTracker.roll_day BudgetTracker.roll_week
    BudgetTracker.roll_month
  by_cases h1 : now.date ≠ t.current_day
    <;> by_cases h3 : now.monthStart ≠ t.current_month
    <;> simp [h, h1, h3]

theorem update_periods_rolled_month (t : BudgetTracker) (now : Clock)
    (h : now.monthStart ≠ t.current_month) : (t.update_periods now).monthly_expenses = 0 := by
  unfold BudgetTracker.update_periods BudgetTracker.roll_day BudgetTracker.roll_week
    BudgetTracker.roll_month
  by_cases h1 : now.date ≠ t.current_day
    <;> by_cases h2 : now.weekStart ≠ t.current_week
    <;> simp [h, h1, h2]

/-- C7: within one period (tracker anchors agreeing with the current
instant), each `record_expense` of a non-negative cost can only decrease
`check_budget_status().remaining`; and immediately after a rollover of a
period, that period's reported remaining equals its full configured
limit (limits being non-negative, as the configuration requires). -/
theorem C7_remaining_monotone_and_rollover (t : BudgetTracker) (now : Clock)
    (c : ℚ) (m d : String) :
    (t.anchorsMatch now → 0 ≤ c →
      ((t.record_expense now c m d).check_budget_status now).2.remaining
        ≤ (t.check_budget_status now).2.remaining)
    ∧ (now.date ≠ t.current_day → 0 ≤ t.daily_budget →
        (t.check_budget_status now).2.daily_remaining = t.daily_budget)
    ∧ (now.weekStart ≠ t.current_week → 0 ≤ t.weekly_budget →
        (t.check_budget_status now).2.weekly_remaining = t.weekly_budget)
    ∧ (now.monthStart ≠ t.current_month → 0 ≤ t.monthly_budget →
        (t.check_budget_status now).2.monthly_remaining = t.monthly_budget) := by
  refine ⟨?_, ?_, ?_, ?_⟩
  · intro hm hc
    have hrec := record_expense_of_match_full t now c m d hm
    have ha : (t.record_expense now c m d).anchorsMatch now := by
      rw [hrec]; exact hm
    unfold BudgetTracker.check_budget_status
    rw [update_periods_of_match _ _ ha, update_periods_of_match _ _ hm, hrec]
    simp only
    refine min_le_min ?_ (min_le_min ?_ ?_)
      <;> exact max_le_max (le_refl 0) (by linarith)
  · intro hne hb
    unfold BudgetTracker.check_budget_status
    simp only
    rw [update_periods_rolled_day t now hne, (update_periods_spec t now).2.1]
    simpa using hb
  · intro hne hb
    unfold BudgetTracker.check_budget_status
    simp only
    rw [update_periods_rolled_week t now hne, (update_periods_spec t now).2.2.1]
    simpa using hb
  · intro hne hb
    unfold BudgetTracker.check_budget_status
    simp only
    rw [update_periods_rolled_month t now hne, (update_periods_spec t now).2.2.2.1]
    simpa using hb

/-- Witness for C7: a concrete same-instant expense of 1 on a fresh
tracker, and a concrete rollover to a new day, week and month. -/
theorem C7_witness :
    ((((BudgetTracker.make {} clk0).record_expense clk0 1 premiumS ("x")).check_budget_status
          clk0).2.remaining
      ≤ (((BudgetTracker.make {} clk0)).check_budget_status clk0).2.remaining)
    ∧ ((BudgetTracker.make {} clk0).check_budget_status clk1).2.daily_remaining
        = (BudgetTracker.make {} clk0).daily_budget
    ∧ ((BudgetTracker.make {} clk0).check_budget_status clk1).2.weekly_remaining
        = (BudgetTracker.make {} clk0).weekly_budget
    ∧ ((BudgetTracker.make {} clk0).check_budget_status clk1).2.monthly_remaining
        = (BudgetTracker.make {} clk0).monthly_budget :=
  ⟨(C7_remaining_monotone_and_rollover (BudgetTracker.make {} clk0) clk0 1 premiumS
      "x").1 ⟨rfl, rfl, rfl⟩ (by norm_num),
   (C7_remaining_monotone_and_rollover (BudgetTracker.make {} clk0) clk1 0 premiumS
      "x").2.1 (by decide) (by norm_num [BudgetTracker.make]),
   (C7_remaining_monotone_and_rollover (BudgetTracker.make {} clk0) clk1 0 premiumS
      "x").2.2.1 (by decide) (by norm_num [BudgetTracker.make]),
   (C7_remaining_monotone_and_rollover (BudgetTracker.make {} clk0) clk1 0 premiumS
      "x").2.2.2 (by decide) (by norm_num [BudgetTracker.make])⟩

theorem total_nonneg (t : BudgetTracker) (h : ∀ e ∈ t.expenses, 0 ≤ e.cost) :
    0 ≤ t.get_total_expenses := by
  unfold BudgetTracker.get_total_expenses
  apply List.sum_nonneg
  intro x hx
  obtain ⟨e, he, rfl⟩ := List.mem_map.1 hx
  exact h e he

theorem TrackerInv.update_periods (t : BudgetTracker) (now : Clock)
    (h : TrackerInv t) : TrackerInv (t.update_periods now) := by
  obtain ⟨he, hd, hw, hm, hdt, hwt, hmt⟩ := h
  obtain ⟨e1, _, _, _, _, _, d1, w1, m1⟩ := update_periods_spec t now
  have htot : (t.update_periods now).get_total_expenses = t.get_total_expenses := by
    unfold BudgetTracker.get_total_expenses
    rw [e1]
  have h0 : 0 ≤ t.get_total_expenses := total_nonneg t he
  refine ⟨by rw [e1]; exact he, ?_, ?_, ?_, ?_, ?_, ?_⟩
  · rcases d1 with h' | h'
    · rw [h']; exact hd
    · rw [h']
  · rcases w1 with h' | h'
    · rw [h']; exact hw
    · rw [h']
  · rcases m1 with h' | h'
    · rw [h']; exact hm
    · rw [h']
  · rcases d1 with h' | h'
    · rw [h', htot]; exact hdt
    · rw [h', htot]; exact h0
  · rcases w1 with h' | h'
    · rw [h', htot]; exact hwt
    · rw [h', htot]; exact h0
  · rcases m1 with h' | h'
    · rw [h', htot]; exact hmt
    · rw [h', htot]; exact h0

theorem TrackerInv.record (t : BudgetTracker) (now : Clock) (c : ℚ) (m d : String)
    (hc : 0 ≤ c) (h : TrackerInv t) : TrackerInv (t.record_expense now c m d) := by
  obtain ⟨he, hd, hw, hm, hdt, hwt, hmt⟩ := TrackerInv.update_periods t now h
  unfold BudgetTracker.record_expense
  refine ⟨?_, ?_, ?_, ?_, ?_, ?_, ?_⟩
    <;> simp only [BudgetTracker.get_total_expenses, List.map_append, List.sum_append,
      List.map_cons, List.map_nil, List.sum_cons, List.sum_nil]
  · intro e hme
    rcases List.mem_append.1 hme with h1 | h2
    · exact he e h1
    · simp at h2
      subst h2
      exact hc
  · linarith
  · linarith
  · linarith
  · have := hdt
    unfold BudgetTracker.get_total_expenses at this
    linarith
  · have := hwt
    unfold BudgetTracker.get_total_expenses at this
    linarith
  · have := hmt
    unfold BudgetTracker.get_total_expenses at this
    linarith

theorem TrackerInv.reset (t : BudgetTracker) (now : Clock) :
    TrackerInv (t.reset_budgets now) := by
  unfold TrackerInv BudgetTracker.reset_budgets BudgetTracker.get_total_expenses
  simp

theorem TrackerInv.check (t : BudgetTracker) (now : Clock) (h : TrackerInv t) :
    TrackerInv ((t.check_budget_status now).1) := by
  unfold BudgetTracker.check_budget_status
  exact TrackerInv.update_periods t now h

theorem TrackerInv.make (cfg : RouterConfig) (now : Clock) :
    TrackerInv (BudgetTracker.make cfg now) := by
  unfold TrackerInv BudgetTracker.make BudgetTracker.get_total_expenses
  simp

theorem runOps_Inv (ops : List BOp) :
    ∀ t : BudgetTracker, TrackerInv t → (∀ op ∈ ops, op.nonneg) →
      TrackerInv (runOps t ops) := by
  induction ops with
  | nil => intro t h _; exact h
  | cons op ops ih =>
      intro t h hops
      have step : runOps t (op :: ops) = runOps (applyOp t op) ops := rfl
      rw [step]
      apply ih _ _ (fun o ho => hops o (by simp [ho]))
      have hop := hops op (by simp)
      cases op with
      | record now c m d => exact TrackerInv.record t now c m d hop h
      | check now => exact TrackerInv.check t now h
      | reset now => exact TrackerInv.reset t now

/-- C3: at every state reachable from a fresh tracker by any sequence of
`record_expense` (with the non-negative costs the data model requires),
`check_budget_status` and `reset_budgets` calls at arbitrary instants
(hence with arbitrary period rollovers), the ledger total
`get_total_expenses()` bounds each of the three period counters from
above and no period counter is negative. -/
theorem C3_counters_bounded_by_total (cfg : RouterConfig) (now0 : Clock)
    (ops : List BOp) (h : ∀ op ∈ ops, op.nonneg) :
    (runOps (BudgetTracker.make cfg now0) ops).daily_expenses
        ≤ (runOps (BudgetTracker.make cfg now0) ops).get_total_expenses
    ∧ (runOps (BudgetTracker.make cfg now0) ops).weekly_expenses
        ≤ (runOps (BudgetTracker.make cfg now0) ops).get_total_expenses
    ∧ (runOps (BudgetTracker.make cfg now0) ops).monthly_expenses
        ≤ (runOps (BudgetTracker.make cfg now0) ops).get_total_expenses
    ∧ 0 ≤ (runOps (BudgetTracker.make cfg now0) ops).daily_expenses
    ∧ 0 ≤ (runOps (BudgetTracker.make cfg now0) ops).weekly_expenses
    ∧ 0 ≤ (runOps (BudgetTracker.make cfg now0) ops).monthly_expenses := by
  obtain ⟨_, hd, hw, hm, hdt, hwt, hmt⟩ :=
    runOps_Inv ops (BudgetTracker.make cfg now0) (TrackerInv.make cfg now0) h
  exact ⟨hdt, hwt, hmt, hd, hw, hm⟩

/-- Witness for C3 at a concrete run: an expense, a status check after a
full rollover, another expense, a reset, and a final expense. -/
theorem C3_counters_bounded_by_total_witness :
    (runOps (BudgetTracker.make {} clk0)
        [BOp.record clk0 (3 / 2) premiumS ("a"), BOp.check clk1,
         BOp.record clk1 (1 / 4) midS ("b"), BOp.reset clk1,
         BOp.record clk1 2 openS ("c")]).daily_expenses
      ≤ (runOps (BudgetTracker.make {} clk0)
        [BOp.record clk0 (3 / 2) premiumS ("a"), BOp.check clk1,
         BOp.record clk1 (1 / 4) midS ("b"), BOp.reset clk1,
         BOp.record clk1 2 openS ("c")]).get_total_expenses :=
  (C3_counters_bounded_by_total {} clk0
    [BOp.record clk0 (3 / 2) premiumS ("a"), BOp.check clk1,
     BOp.record clk1 (1 / 4) midS ("b"), BOp.reset clk1,
     BOp.record clk1 2 openS ("c")]
    (by intro op hop; fin_cases hop <;> norm_num [BOp.nonneg])).1

/-- C5: `calculate_complexity` is a total function whose score lies in
[0,1] for every description and every context (absent, empty, well-formed
or holding junk values); a context feature whose key a present context
lacks is set to the neutral 0.5, and a malformed (non-boolean,
non-numeric) feature value normalizes to the neutral 0.5. -/
theorem C5_score_in_unit_and_neutral_defaults (sc : ComplexityScorer)
    (d : String) (ctx : Option PyDict) :
    (0 ≤ (sc.calculate_complexity d ctx).1 ∧ (sc.calculate_complexity d ctx).1 ≤ 1)
    ∧ (∀ l : PyDict, ctx = some l → l.isEmpty = false →
        ∀ k ∈ [hsrS, stcS, uslS], l.lookup k = none →
          (extract_features d ctx).lookup k = some (PyVal.pyNum (1 / 2)))
    ∧ (∀ name : String, normalize_feature name PyVal.pyOther = 1 / 2) := by
  refine ⟨⟨le_max_left 0 _, max_le zero_le_one (min_le_left 1 _)⟩, ?_, ?_⟩
  · intro l hl hne k hk hnone
    subst hl
    unfold extract_features
    simp only [hne, Bool.false_eq_true, if_false, ite_false]
    fin_cases hk
      <;> simp only [hsrS, stcS, uslS] at hnone
      <;> simp [List.lookup, hsrS, stcS, uslS, wordCountS, appCountS, stepCountS, hnone]
  · intro name
    rfl

/-- Witness for C5: the concrete description "hello" with a nonempty
context that lacks all three context keys and holds a junk value. -/
theorem C5_score_in_unit_and_neutral_defaults_witness :
    (0 ≤ ((ComplexityScorer.make {}).calculate_complexity ("hello")
        (some [(("foo"), PyVal.pyOther)])).1)
    ∧ ((extract_features ("hello") (some [(("foo"), PyVal.pyOther)])).lookup hsrS
        = some (PyVal.pyNum (1 / 2))) :=
  ⟨(C5_score_in_unit_and_neutral_defaults (ComplexityScorer.make {}) ("hello")
      (some [(("foo"), PyVal.pyOther)])).1.1,
   (C5_score_in_unit_and_neutral_defaults (ComplexityScorer.make {}) ("hello")
      (some [(("foo"), PyVal.pyOther)])).2.1 _ rfl (by decide) hsrS (by simp)
      (by decide)⟩

/-- C1: for every complexity and budget status, on a selector whose
catalog holds the premium, mid and open tiers (as any fully enabled
configuration does; "rule" is always present) and whose thresholds are
ordered as the configuration contract requires (open ≤ mid, open ≤
premium), `select_model` returns — with no possible `KeyError` — a tier
of the instantiated catalog, returns "rule" whenever the complexity is at
most the open threshold, and returns "rule" whenever the budget is
critical and neither cheaper tier (mid, open) is affordable. -/
theorem C1_select_model_total_and_rule_fallback (cfg : RouterConfig) (c : ℚ)
    (b : BudgetStatusIn)
    (hp : premiumS ∈ (ModelSelector.make cfg).models)
    (hm : midS ∈ (ModelSelector.make cfg).models)
    (ho : openS ∈ (ModelSelector.make cfg).models)
    (hom : cfg.open_threshold ≤ cfg.mid_threshold)
    (hop : cfg.open_threshold ≤ cfg.premium_threshold) :
    ∃ tname, (ModelSelector.make cfg).select_model c b = some tname
      ∧ tname ∈ (ModelSelector.make cfg).models
      ∧ (c ≤ cfg.open_threshold → tname = ruleS)
      ∧ (b.is_critical = true →
          (ModelSelector.make cfg).can_afford_model midS b.remaining = false →
          (ModelSelector.make cfg).can_afford_model openS b.remaining = false →
          tname = ruleS) := by
  unfold ModelSelector.select_model
  dsimp only
  split_ifs with h1 h2 h3 h4
  · refine ⟨premiumS, getTier_of_mem _ _ hp, hp, ?_, ?_⟩
    · intro hle
      exact absurd h1.1 (not_lt.2 (le_trans hle hop))
    · intro hcrit _ _
      rw [hcrit] at h1
      exact absurd h1.2.1 (by simp)
  · refine ⟨midS, getTier_of_mem _ _ hm, hm, ?_, ?_⟩
    · intro hle
      exact absurd h2.1 (not_lt.2 (le_trans hle hom))
    · intro _ hmid _
      rw [h2.2] at hmid
      exact absurd hmid (by simp)
  · refine ⟨premiumS, getTier_of_mem _ _ hp, hp, ?_, ?_⟩
    · intro hle
      exact absurd h3.1 (not_lt.2 (le_trans hle hom))
    · intro hcrit _ _
      rw [hcrit] at h3
      exact absurd h3.2.1 (by simp)
  · refine ⟨openS, getTier_of_mem _ _ ho, ho, ?_, ?_⟩
    · intro hle
      exact absurd h4.1 (not_lt.2 hle)
    · intro _ _ hopen
      rw [h4.2] at hopen
      exact absurd hopen (by simp)
  · exact ⟨ruleS, getTier_of_mem _ _ (rule_mem_initModels cfg), rule_mem_initModels cfg,
      fun _ => rfl, fun _ _ _ => rfl⟩

/-- Witness for C1 on a fully enabled configuration with the default
threshold ordering, at a concrete complexity and a critical, empty
budget. -/
theorem C1_select_model_total_and_rule_fallback_witness :
    ∃ tname, (ModelSelector.make allcfg).select_model (1 / 10) ⟨true, 0⟩ = some tname
      ∧ tname ∈ (ModelSelector.make allcfg).models
      ∧ ((1 : ℚ) / 10 ≤ allcfg.open_threshold → tname = ruleS)
      ∧ ((true : Bool) = true →
          (ModelSelector.make allcfg).can_afford_model midS 0 = false →
          (ModelSelector.make allcfg).can_afford_model openS 0 = false →
          tname = ruleS) :=
  C1_select_model_total_and_rule_fallback allcfg (1 / 10) ⟨true, 0⟩
    (by simp [ModelSelector.make, initModels, allcfg])
    (by simp [ModelSelector.make, initModels, allcfg])
    (by simp [ModelSelector.make, initModels, allcfg])
    (by simp [RouterConfig.open_threshold, RouterConfig.mid_threshold, allcfg,
      List.lookup, openS, midS, premiumS]; norm_num)
    (by simp [RouterConfig.open_threshold, RouterConfig.premium_threshold, allcfg,
      List.lookup, openS, midS, premiumS]; norm_num)
